import Mathlib

/-!
Shallow embedding of the statistical prediction engine of the `poison`
repository (`src/netlify/functions/api.js`).  That file contains two
revisions of the Netlify handler: an earlier revision (Poisson,
Dixon-Coles and bivariate-Poisson scoreline models with the goal-line and
BTTS analyzers) and a later revision (which adds the match-history form
analyzer and the goal-difference regression adjustment to expected goals).
Both revisions are embedded here; where a function exists in both, the
later revision's copy carries a `2` suffix when the two differ.

JavaScript numbers are modelled as exact rationals (`ℚ`) in the purely
arithmetical parts of the engine (linear regression, form analysis,
expected-goals estimation, value classification) and as reals (`ℝ`) in
the parts built on `Math.exp` (the Poisson kernel and the scoreline
models).  `parseFloat(x.toFixed(d))` is modelled by `jsToFixed d`:
ECMA-262 `toFixed` picks the closest `n / 10^d`, breaking ties upwards,
which is Mathlib's `round`.
-/

namespace Poison

/-- Model of `parseFloat(x.toFixed(d))`: round to `d` decimal digits,
ties towards positive infinity. -/
def jsToFixed (d : ℕ) (x : ℚ) : ℚ :=
  (round (x * 10 ^ d) : ℤ) / 10 ^ d

/-- Result record of `linearRegression` (`api.js`, later revision,
lines 618-643). -/
structure RegressionResult where
  slope : ℚ
  intercept : ℚ
  r2 : ℚ
deriving DecidableEq, Repr

/-- Embedding of `linearRegression` (`api.js`, later revision, lines
618-643): ordinary least squares of `yValues` against `xValues`.
`sumXY` and `ssResidual` pair the two lists positionally, as the
JavaScript index-based `reduce` does (every caller passes lists of equal
length). -/
def linearRegression (xValues yValues : List ℚ) : RegressionResult :=
  let n : ℚ := xValues.length
  if xValues.length = 0 then ⟨0, 0, 0⟩
  else
    let sumX := xValues.sum
    let sumY := yValues.sum
    let sumXY := ((xValues.zip yValues).map fun p => p.1 * p.2).sum
    let sumX2 := (xValues.map fun x => x * x).sum
    let denominator := n * sumX2 - sumX * sumX
    if denominator = 0 then ⟨0, sumY / n, 0⟩
    else
      let slope := (n * sumXY - sumX * sumY) / denominator
      let intercept := (sumY - slope * sumX) / n
      let meanY := sumY / n
      let ssTotal := (yValues.map fun y => (y - meanY) ^ 2).sum
      let ssResidual := ((xValues.zip yValues).map fun p =>
        (p.2 - (slope * p.1 + intercept)) ^ 2).sum
      let r2 := if ssTotal ≠ 0 then 1 - ssResidual / ssTotal else 0
      ⟨slope, intercept, r2⟩

/-- One row of the `match_history` table.  The columns are integer-valued
in the schema; they are modelled over `ℚ` because JavaScript reads them
back as numbers and feeds them to the regression unchanged. -/
structure MatchHistoryEntry where
  match_number : ℚ
  goals_scored : ℚ
  goals_conceded : ℚ
  was_home : ℚ
  points : ℚ
deriving DecidableEq, Repr

/-- Per-match echo produced for the frontend (`matchData` inside
`analyzeTeamForm`). -/
structure MatchData where
  matchNumber : ℚ
  goalsScored : ℚ
  goalsConceded : ℚ
  goalDiff : ℚ
  points : ℚ
  wasHome : Bool
deriving DecidableEq, Repr

/-- Result record of `analyzeTeamForm` (`api.js`, later revision, lines
646-718).  The JavaScript empty-history branch also carries `intercept`
and `r2` fields that the non-empty branch omits and no caller reads;
they are not modelled.  `gdIntercept` is absent (undefined) in the
JavaScript empty-history object and is 0 here. -/
structure FormAnalysis where
  avgGoalsScored : ℚ
  avgGoalsConceded : ℚ
  avgPoints : ℚ
  slope : ℚ
  gdSlope : ℚ
  gdIntercept : ℚ
  predictedGD : ℚ
  trend : String
  formModifier : ℚ
  matchData : List MatchData
deriving DecidableEq, Repr

/-- Embedding of `analyzeTeamForm` (`api.js`, later revision, lines
646-718).  `[...].sort((a, b) => a.match_number - b.match_number)` is a
stable ascending sort, modelled by the stable `List.insertionSort`.  The
JavaScript trend/formModifier `if` chain assigns both variables in one
branch; it is rendered as two structurally identical conditionals. -/
def analyzeTeamForm (matchHistory : List MatchHistoryEntry) : FormAnalysis :=
  if matchHistory.length = 0 then
    { avgGoalsScored := 0, avgGoalsConceded := 0, avgPoints := 0
      slope := 0, gdSlope := 0, gdIntercept := 0, predictedGD := 0
      trend := "neutral", formModifier := 1.0, matchData := [] }
  else
    let sorted := matchHistory.insertionSort fun x y => x.match_number ≤ y.match_number
    let xValues := sorted.map (·.match_number)
    let goalsScored := sorted.map (·.goals_scored)
    let goalsConceded := sorted.map (·.goals_conceded)
    let points := sorted.map (·.points)
    let goalDiffs := sorted.map fun m => m.goals_scored - m.goals_conceded
    let goalsRegression := linearRegression xValues goalsScored
    let gdRegression := linearRegression xValues goalDiffs
    let nextMatchX : ℚ := xValues.length + 1
    let predictedGD := gdRegression.slope * nextMatchX + gdRegression.intercept
    let trend :=
      if gdRegression.slope > 0.25 then "improving"
      else if gdRegression.slope < -0.25 then "declining"
      else "neutral"
    let formModifier : ℚ :=
      if gdRegression.slope > 0.25 then 1.0 + gdRegression.slope * 0.4
      else if gdRegression.slope < -0.25 then 1.0 + gdRegression.slope * 0.4
      else 1.0
    let formModifier := max 0.80 (min 1.20 formModifier)
    { avgGoalsScored := jsToFixed 2 (goalsScored.sum / (goalsScored.length : ℚ))
      avgGoalsConceded := jsToFixed 2 (goalsConceded.sum / (goalsConceded.length : ℚ))
      avgPoints := jsToFixed 2 (points.sum / (points.length : ℚ))
      slope := jsToFixed 3 goalsRegression.slope
      gdSlope := jsToFixed 3 gdRegression.slope
      gdIntercept := jsToFixed 3 gdRegression.intercept
      predictedGD := jsToFixed 2 predictedGD
      trend := trend
      formModifier := jsToFixed 3 formModifier
      matchData := sorted.map fun (m : MatchHistoryEntry) =>
        { matchNumber := m.match_number, goalsScored := m.goals_scored
          goalsConceded := m.goals_conceded
          goalDiff := m.goals_scored - m.goals_conceded
          points := m.points, wasHome := decide (m.was_home = 1) } }

/-- The goal-difference OLS slope that `analyzeTeamForm` computes
internally; the specification's trend threshold and clamp formula are
stated in terms of this quantity. -/
def gdSlopeOf (matchHistory : List MatchHistoryEntry) : ℚ :=
  let sorted := matchHistory.insertionSort fun x y => x.match_number ≤ y.match_number
  (linearRegression (sorted.map (·.match_number))
    (sorted.map fun m => m.goals_scored - m.goals_conceded)).slope

/-- C7: on an empty match history, the form analyzer returns exactly the
neutral analysis: `formModifier = 1.0`, `trend = 'neutral'` and
`predictedGD = 0` (a total function: no error is possible). -/
theorem analyzeTeamForm_empty_neutral :
    (analyzeTeamForm []).formModifier = 1 ∧
    (analyzeTeamForm []).trend = "neutral" ∧
    (analyzeTeamForm []).predictedGD = 0 := by
  refine ⟨?_, ?_, ?_⟩ <;> norm_num [analyzeTeamForm]

/-- Helper: a list all of whose elements equal `c` sums to `length * c`. -/
theorem list_sum_of_const {c : ℚ} :
    ∀ {xs : List ℚ}, (∀ x ∈ xs, x = c) → xs.sum = xs.length * c := by
  intro xs
  induction xs with
  | nil => intro _; simp
  | cons a t ih =>
      intro h
      have ha : a = c := h a (by simp)
      have ht : ∀ x ∈ t, x = c := fun x hx => h x (by simp [hx])
      rw [List.sum_cons, ih ht, ha, List.length_cons]
      push_cast
      ring

/-- C8: with a non-empty history whose `matchNumber` values are all
identical (zero variance in the regression's independent variable), the
regression's denominator is zero and `linearRegression` takes the guarded
branch: slope `0` and intercept the mean of the dependent values, with no
division by zero. -/
theorem linearRegression_zero_variance (xs ys : List ℚ) (c : ℚ)
    (hne : xs ≠ []) (hc : ∀ x ∈ xs, x = c) (hlen : ys.length = xs.length) :
    linearRegression xs ys = ⟨0, ys.sum / (ys.length : ℚ), 0⟩ := by
  have hn : ¬ xs.length = 0 := by
    simpa [List.length_eq_zero] using hne
  have hX : xs.sum = xs.length * c := list_sum_of_const hc
  have hX2 : (xs.map fun x => x * x).sum = xs.length * (c * c) := by
    have hmap : ∀ y ∈ xs.map fun x => x * x, y = c * c := by
      intro y hy
      rcases List.mem_map.mp hy with ⟨x, hx, rfl⟩
      rw [hc x hx]
    have := list_sum_of_const hmap
    simpa [List.length_map] using this
  have hden : (xs.length : ℚ) * (xs.map fun x => x * x).sum - xs.sum * xs.sum = 0 := by
    rw [hX, hX2]; ring
  simp only [linearRegression, hn, if_false, hden, if_true]
  rw [← hlen]

/-- Witness for `linearRegression_zero_variance`: both sample x-values
equal 2, so the slope is 0 and the intercept is the mean of `[1, 3]`. -/
theorem linearRegression_zero_variance_witness :
    linearRegression [2, 2] [1, 3] = ⟨0, 2, 0⟩ := by
  rw [linearRegression_zero_variance [2, 2] [1, 3] 2 (by simp) (by simp) rfl]
  norm_num

/-- C2 (amended): for every match history, the form modifier returned by
the form analyzer is the 3-decimal rounding of
`clamp(1.0 + slope * 0.4, 0.80, 1.20)` when the goal-difference slope is
strictly outside the neutral band `[-0.25, 0.25]`, and of `1.0` (the
clamp formula is not applied) when the slope lies inside the band. -/
theorem analyzeTeamForm_formModifier_eq (ms : List MatchHistoryEntry) :
    (analyzeTeamForm ms).formModifier =
      jsToFixed 3 (max 0.80 (min 1.20
        (if gdSlopeOf ms > 0.25 ∨ gdSlopeOf ms < -0.25
          then 1.0 + gdSlopeOf ms * 0.4 else 1.0))) := by
  by_cases h : ms.length = 0
  · have hnil : ms = [] := List.length_eq_zero.mp h
    subst hnil
    norm_num [analyzeTeamForm, gdSlopeOf, linearRegression, jsToFixed, round_eq, max_def,
      min_def]
  · simp only [analyzeTeamForm, gdSlopeOf, h, if_false]
    congr 1
    congr 1
    congr 1
    split_ifs <;> first | rfl | tauto

/-- The concrete history refuting the unrestricted clamp formula of C2:
goal differences `[0, 0, 0, 0, 1]` over matches `1..5`. -/
def histC2 : List MatchHistoryEntry :=
  [⟨1, 0, 0, 1, 1⟩, ⟨2, 0, 0, 0, 1⟩, ⟨3, 0, 0, 1, 1⟩, ⟨4, 0, 0, 0, 1⟩, ⟨5, 1, 0, 1, 3⟩]

/-- Evaluation helper: `histC2` is already ascending in `match_number`,
so the stable sort leaves it unchanged. -/
theorem histC2_sorted :
    histC2.insertionSort (fun x y => x.match_number ≤ y.match_number) = histC2 := by
  norm_num [histC2]

/-- Evaluation helper: the x-values of `histC2`. -/
theorem histC2_x : histC2.map (·.match_number) = [1, 2, 3, 4, 5] := by
  norm_num [histC2]

/-- Evaluation helper: the goal differences of `histC2`. -/
theorem histC2_gd :
    (histC2.map fun m => m.goals_scored - m.goals_conceded) = [0, 0, 0, 0, 1] := by
  norm_num [histC2]

/-- Evaluation helper: the goal-difference regression of `histC2`. -/
theorem linearRegression_histC2 :
    linearRegression [1, 2, 3, 4, 5] [0, 0, 0, 0, 1] = ⟨1 / 5, -2 / 5, 1 / 2⟩ := by
  norm_num [linearRegression]

/-- Evaluation helper: the goal-difference slope of `histC2` is `1/5`. -/
theorem gdSlopeOf_histC2 : gdSlopeOf histC2 = 1 / 5 := by
  simp only [gdSlopeOf, histC2_sorted, histC2_x, histC2_gd, linearRegression_histC2]

/-- C2 counterexample: on `histC2` the goal-difference slope is `1/5`,
inside the neutral band, and the analyzer returns `formModifier = 1`,
while `clamp(1.0 + slope * 0.4, 0.80, 1.20) = 27/25 = 1.08`; so
`formModifier` does not equal the clamp formula for every slope. -/
theorem formModifier_neutral_band_counterexample :
    gdSlopeOf histC2 = 1 / 5 ∧
    (analyzeTeamForm histC2).formModifier = 1 ∧
    max 0.80 (min 1.20 (1.0 + gdSlopeOf histC2 * 0.4)) = 27 / 25 ∧
    (analyzeTeamForm histC2).formModifier ≠
      max 0.80 (min 1.20 (1.0 + gdSlopeOf histC2 * 0.4)) := by
  have hne : ¬ histC2.length = 0 := by simp [histC2]
  have hfm : (analyzeTeamForm histC2).formModifier = 1 := by
    simp only [analyzeTeamForm, hne, if_false, histC2_sorted, histC2_x, histC2_gd,
      linearRegression_histC2]
    norm_num [jsToFixed, round_eq, max_def, min_def]
  refine ⟨gdSlopeOf_histC2, hfm, ?_, ?_⟩
  · rw [gdSlopeOf_histC2]
    norm_num [max_def, min_def]
  · rw [gdSlopeOf_histC2, hfm]
    norm_num [max_def, min_def]

/-- The `leagues` row fields used by prediction (`real` columns). -/
structure League where
  avg_home_goals : ℚ
  avg_away_goals : ℚ
deriving DecidableEq, Repr

/-- The `teams` row fields used by prediction (integer columns, read
back as JavaScript numbers). -/
structure Team where
  home_goals_for : ℚ
  home_goals_against : ℚ
  home_games_played : ℚ
  away_goals_for : ℚ
  away_goals_against : ℚ
  away_games_played : ℚ
deriving DecidableEq, Repr

/-- Embedding of `safeDiv` (`api.js`, later revision, line 888):
division returning 0 on a zero denominator. -/
def safeDiv (num den : ℚ) : ℚ := if den = 0 then 0 else num / den

/-- Embedding of the expected-goals computation of the later revision's
`predict` action (`api.js` lines 880-907): analyze both match histories,
form the goal-difference regression adjustment, compute the four
strength ratios, scale the attack strengths by the form modifiers,
apply the adjustment with opposite signs, and floor both values at 0.1.
Returns `(homeExpGoals, awayExpGoals)` as fed to the scoreline models. -/
def predictExpGoals (league : League) (homeTeam awayTeam : Team)
    (homeHistory awayHistory : List MatchHistoryEntry) : ℚ × ℚ :=
  let homeForm := analyzeTeamForm homeHistory
  let awayForm := analyzeTeamForm awayHistory
  let regressionAdjustment := (homeForm.predictedGD - awayForm.predictedGD) / 4
  let homeAttackStr :=
    safeDiv (safeDiv homeTeam.home_goals_for homeTeam.home_games_played) league.avg_home_goals
  let awayAttackStr :=
    safeDiv (safeDiv awayTeam.away_goals_for awayTeam.away_games_played) league.avg_away_goals
  let homeDefenseStr :=
    safeDiv (safeDiv homeTeam.home_goals_against homeTeam.home_games_played) league.avg_away_goals
  let awayDefenseStr :=
    safeDiv (safeDiv awayTeam.away_goals_against awayTeam.away_games_played) league.avg_home_goals
  let homeAttackStr := homeAttackStr * homeForm.formModifier
  let awayAttackStr := awayAttackStr * awayForm.formModifier
  let homeExpGoals := homeAttackStr * awayDefenseStr * league.avg_home_goals
  let awayExpGoals := awayAttackStr * homeDefenseStr * league.avg_away_goals
  let homeExpGoals := homeExpGoals + regressionAdjustment
  let awayExpGoals := awayExpGoals - regressionAdjustment
  let homeExpGoals := max 0.1 homeExpGoals
  let awayExpGoals := max 0.1 awayExpGoals
  (homeExpGoals, awayExpGoals)

/-- C1: the estimator's output is exactly the claimed formula:
`homeExpGoals = max 0.1 ((homeAttackStr · homeFormModifier) · awayDefenseStr · leagueAvgHomeGoals + adj)`
and
`awayExpGoals = max 0.1 ((awayAttackStr · awayFormModifier) · homeDefenseStr · leagueAvgAwayGoals − adj)`
with `adj = (homePredictedGD − awayPredictedGD) / 4` the regression
adjustment and both values floored at 0.1. -/
theorem predictExpGoals_formula (league : League) (homeTeam awayTeam : Team)
    (homeHistory awayHistory : List MatchHistoryEntry) :
    predictExpGoals league homeTeam awayTeam homeHistory awayHistory =
      (max 0.1
        ((safeDiv (safeDiv homeTeam.home_goals_for homeTeam.home_games_played)
              league.avg_home_goals * (analyzeTeamForm homeHistory).formModifier) *
            safeDiv (safeDiv awayTeam.away_goals_against awayTeam.away_games_played)
              league.avg_home_goals * league.avg_home_goals +
          ((analyzeTeamForm homeHistory).predictedGD -
            (analyzeTeamForm awayHistory).predictedGD) / 4),
       max 0.1
        ((safeDiv (safeDiv awayTeam.away_goals_for awayTeam.away_games_played)
              league.avg_away_goals * (analyzeTeamForm awayHistory).formModifier) *
            safeDiv (safeDiv homeTeam.home_goals_against homeTeam.home_games_played)
              league.avg_away_goals * league.avg_away_goals -
          ((analyzeTeamForm homeHistory).predictedGD -
            (analyzeTeamForm awayHistory).predictedGD) / 4)) := rfl

/-- Result record of `analyzeTGL` (both revisions). -/
structure TGLResult where
  totalExpectedGoals : ℚ
  bookieLine : ℚ
  difference : ℚ
  recommendation : String
  valueRating : String
  confidence : String
deriving DecidableEq, Repr

/-- Embedding of `analyzeTGL` (`api.js`, first revision, lines 109-157).
The JavaScript assigns the three strings inside one `if` chain; it is
rendered as three conditionals with identical conditions. -/
def analyzeTGL (totalExpectedGoals bookieLine : ℚ) : TGLResult :=
  let margin : ℚ := 0.20
  let difference := totalExpectedGoals - bookieLine
  let absDiff := |difference|
  let recommendation :=
    if totalExpectedGoals > bookieLine + margin then "OVER"
    else if totalExpectedGoals < bookieLine - margin then "UNDER"
    else "NO BET"
  let valueRating :=
    if totalExpectedGoals > bookieLine + margin then
      if absDiff > 0.5 then "STRONG VALUE"
      else if absDiff > 0.3 then "GOOD VALUE" else "SLIGHT VALUE"
    else if totalExpectedGoals < bookieLine - margin then
      if absDiff > 0.5 then "STRONG VALUE"
      else if absDiff > 0.3 then "GOOD VALUE" else "SLIGHT VALUE"
    else "LINE IS ACCURATE"
  let confidence :=
    if totalExpectedGoals > bookieLine + margin then
      if absDiff > 0.5 then "High" else if absDiff > 0.3 then "Medium" else "Low"
    else if totalExpectedGoals < bookieLine - margin then
      if absDiff > 0.5 then "High" else if absDiff > 0.3 then "Medium" else "Low"
    else "N/A"
  { totalExpectedGoals := jsToFixed 2 totalExpectedGoals, bookieLine := bookieLine
    difference := jsToFixed 2 difference, recommendation := recommendation
    valueRating := valueRating, confidence := confidence }

/-- Embedding of the later revision's `analyzeTGL` (`api.js` lines
731-752): same recommendations and value ratings, but
`confidence = absDiff > 0.5 ? "High" : "Medium"` in both recommended
directions, so the "Low" grade no longer occurs. -/
def analyzeTGL2 (totalExpectedGoals bookieLine : ℚ) : TGLResult :=
  let margin : ℚ := 0.20
  let difference := totalExpectedGoals - bookieLine
  let absDiff := |difference|
  let recommendation :=
    if totalExpectedGoals > bookieLine + margin then "OVER"
    else if totalExpectedGoals < bookieLine - margin then "UNDER"
    else "NO BET"
  let valueRating :=
    if totalExpectedGoals > bookieLine + margin then
      if absDiff > 0.5 then "STRONG VALUE"
      else if absDiff > 0.3 then "GOOD VALUE" else "SLIGHT VALUE"
    else if totalExpectedGoals < bookieLine - margin then
      if absDiff > 0.5 then "STRONG VALUE"
      else if absDiff > 0.3 then "GOOD VALUE" else "SLIGHT VALUE"
    else "LINE IS ACCURATE"
  let confidence :=
    if totalExpectedGoals > bookieLine + margin then
      if absDiff > 0.5 then "High" else "Medium"
    else if totalExpectedGoals < bookieLine - margin then
      if absDiff > 0.5 then "High" else "Medium"
    else "N/A"
  { totalExpectedGoals := jsToFixed 2 totalExpectedGoals, bookieLine := bookieLine
    difference := jsToFixed 2 difference, recommendation := recommendation
    valueRating := valueRating, confidence := confidence }

/-- The goal-line classification exactly as C3 states it (spec section
4.6): direction by the 0.20 margin, then STRONG VALUE/High above 0.5,
GOOD VALUE/Medium above 0.3, SLIGHT VALUE/Low otherwise. -/
def tglClaimSpec (t line : ℚ) : String × String × String :=
  if t > line + 0.20 then
    if |t - line| > 0.5 then ("OVER", "STRONG VALUE", "High")
    else if |t - line| > 0.3 then ("OVER", "GOOD VALUE", "Medium")
    else ("OVER", "SLIGHT VALUE", "Low")
  else if t < line - 0.20 then
    if |t - line| > 0.5 then ("UNDER", "STRONG VALUE", "High")
    else if |t - line| > 0.3 then ("UNDER", "GOOD VALUE", "Medium")
    else ("UNDER", "SLIGHT VALUE", "Low")
  else ("NO BET", "LINE IS ACCURATE", "N/A")

/-- C3 (amended): the first-revision goal-line classifier agrees with
the claimed classification exactly, Low confidence included; the later
condensed revision returns the same recommendation and value rating but
grades confidence only High (above 0.5) or Medium inside a recommended
direction, never Low. -/
theorem analyzeTGL_classification (t line : ℚ) :
    ((analyzeTGL t line).recommendation, (analyzeTGL t line).valueRating,
        (analyzeTGL t line).confidence) = tglClaimSpec t line ∧
    (analyzeTGL2 t line).recommendation = (analyzeTGL t line).recommendation ∧
    (analyzeTGL2 t line).valueRating = (analyzeTGL t line).valueRating ∧
    (analyzeTGL2 t line).confidence =
      (if t > line + 0.20 ∨ t < line - 0.20 then
        if |t - line| > 0.5 then "High" else "Medium"
      else "N/A") := by
  refine ⟨?_, ?_, ?_, ?_⟩ <;>
    simp only [analyzeTGL, analyzeTGL2, tglClaimSpec] <;>
    split_ifs <;> first | rfl | tauto | linarith

/-- C3 counterexample: at `totalExpectedGoals = 2.75`, `bookieLine = 2.5`
the later revision recommends OVER with SLIGHT VALUE but grades the
confidence Medium, not the Low that the claim requires for slight
value. -/
theorem analyzeTGL2_slight_value_counterexample :
    (analyzeTGL2 (11 / 4) (5 / 2)).recommendation = "OVER" ∧
    (analyzeTGL2 (11 / 4) (5 / 2)).valueRating = "SLIGHT VALUE" ∧
    (analyzeTGL2 (11 / 4) (5 / 2)).confidence = "Medium" ∧
    (analyzeTGL2 (11 / 4) (5 / 2)).confidence ≠ "Low" := by
  have habs : |(1 / 4 : ℚ)| = 1 / 4 := by
    rw [abs_of_nonneg]; norm_num
  refine ⟨?_, ?_, ?_, ?_⟩ <;> norm_num [analyzeTGL2, habs] <;> decide

/-- Result record of the value-analysis block of `analyzeBTTS`. -/
structure BTTSValue where
  recommendation : String
  valueRating : String
  confidence : String
  expectedValue : ℚ
deriving DecidableEq, Repr

/-- Embedding of the value-analysis block of `analyzeBTTS` (`api.js`,
first revision, lines 229-263) as a function of the bookmaker BTTS-yes
odds and the bivariate-model fair odds (which the surrounding code sets
to `null` when the model's BTTS-yes probability is not positive).  The
JavaScript guard `if (bookieBTTSOdds && fairOddsBTTS_Yes)` leaves the
defaults in place when the bookmaker odds are 0 or the fair odds are
null. -/
def analyzeBTTSValue (bookieBTTSOdds : ℚ) (fairOddsBTTS_Yes : Option ℚ) : BTTSValue :=
  match fairOddsBTTS_Yes with
  | none => ⟨"NO BET", "NO CLEAR VALUE", "N/A", 0⟩
  | some fairOdds =>
    if bookieBTTSOdds = 0 then ⟨"NO BET", "NO CLEAR VALUE", "N/A", 0⟩
    else
      let valueDiffYes := bookieBTTSOdds - fairOdds
      if valueDiffYes > 0.30 then ⟨"BET BTTS YES", "STRONG VALUE", "High", valueDiffYes⟩
      else if valueDiffYes > 0.15 then ⟨"BET BTTS YES", "GOOD VALUE", "Medium", valueDiffYes⟩
      else if valueDiffYes > 0.05 then ⟨"BET BTTS YES", "SLIGHT VALUE", "Low", valueDiffYes⟩
      else if valueDiffYes < -0.20 then
        ⟨"CONSIDER BTTS NO", "BOOKIE UNDERPRICING YES", "Medium", valueDiffYes⟩
      else ⟨"NO BET", "NO CLEAR VALUE", "N/A", valueDiffYes⟩

/-- Embedding of the value-analysis block of the later revision's
`analyzeBTTS` (`api.js` lines 781-787): only two live branches remain —
GOOD VALUE/Medium above 0.15 and `UNDERPRICED YES` (confidence left at
"N/A") below −0.20 — everything else is NO BET. -/
def analyzeBTTSValue2 (bookieBTTSOdds : ℚ) (fairOddsBTTS_Yes : Option ℚ) : BTTSValue :=
  match fairOddsBTTS_Yes with
  | none => ⟨"NO BET", "NO CLEAR VALUE", "N/A", 0⟩
  | some fairOdds =>
    if bookieBTTSOdds = 0 then ⟨"NO BET", "NO CLEAR VALUE", "N/A", 0⟩
    else
      let valueDiffYes := bookieBTTSOdds - fairOdds
      if valueDiffYes > 0.15 then ⟨"BET BTTS YES", "GOOD VALUE", "Medium", valueDiffYes⟩
      else if valueDiffYes < -0.20 then
        ⟨"CONSIDER BTTS NO", "UNDERPRICED YES", "N/A", valueDiffYes⟩
      else ⟨"NO BET", "NO CLEAR VALUE", "N/A", valueDiffYes⟩

/-- The BTTS value ladder exactly as C4 states it (spec section 4.7). -/
def bttsClaimSpec (bookieOdds fairOdds : ℚ) : String × String × String :=
  let valueDiff := bookieOdds - fairOdds
  if valueDiff > 0.30 then ("BET BTTS YES", "STRONG VALUE", "High")
  else if valueDiff > 0.15 then ("BET BTTS YES", "GOOD VALUE", "Medium")
  else if valueDiff > 0.05 then ("BET BTTS YES", "SLIGHT VALUE", "Low")
  else if valueDiff < -0.20 then ("CONSIDER BTTS NO", "BOOKIE UNDERPRICING YES", "Medium")
  else ("NO BET", "NO CLEAR VALUE", "N/A")

/-- C4 (amended): for positive bookmaker odds and positive fair odds,
the first-revision BTTS value analysis matches the claimed ladder
exactly; the later condensed revision keeps only the GOOD VALUE/Medium
branch above 0.15 and the BTTS-NO branch below −0.20 (labelled
`UNDERPRICED YES`, confidence left "N/A"), and returns NO BET for every
other value difference. -/
theorem analyzeBTTS_value_ladder (bookieOdds fairOdds : ℚ)
    (hb : 0 < bookieOdds) (hf : 0 < fairOdds) :
    ((analyzeBTTSValue bookieOdds (some fairOdds)).recommendation,
        (analyzeBTTSValue bookieOdds (some fairOdds)).valueRating,
        (analyzeBTTSValue bookieOdds (some fairOdds)).confidence) =
      bttsClaimSpec bookieOdds fairOdds ∧
    ((analyzeBTTSValue2 bookieOdds (some fairOdds)).recommendation,
        (analyzeBTTSValue2 bookieOdds (some fairOdds)).valueRating,
        (analyzeBTTSValue2 bookieOdds (some fairOdds)).confidence) =
      (if bookieOdds - fairOdds > 0.15 then ("BET BTTS YES", "GOOD VALUE", "Medium")
      else if bookieOdds - fairOdds < -0.20 then ("CONSIDER BTTS NO", "UNDERPRICED YES", "N/A")
      else ("NO BET", "NO CLEAR VALUE", "N/A")) := by
  constructor <;>
    simp only [analyzeBTTSValue, analyzeBTTSValue2, bttsClaimSpec, hb.ne', if_false] <;>
    split_ifs <;> first | rfl | tauto | linarith

/-- Witness for `analyzeBTTS_value_ladder` at bookmaker odds 2 and fair
odds 8/5 (value difference 0.4). -/
theorem analyzeBTTS_value_ladder_witness :
    ((analyzeBTTSValue 2 (some (8 / 5))).recommendation,
        (analyzeBTTSValue 2 (some (8 / 5))).valueRating,
        (analyzeBTTSValue 2 (some (8 / 5))).confidence) =
      bttsClaimSpec 2 (8 / 5) ∧
    ((analyzeBTTSValue2 2 (some (8 / 5))).recommendation,
        (analyzeBTTSValue2 2 (some (8 / 5))).valueRating,
        (analyzeBTTSValue2 2 (some (8 / 5))).confidence) =
      (if (2 : ℚ) - 8 / 5 > 0.15 then ("BET BTTS YES", "GOOD VALUE", "Medium")
      else if (2 : ℚ) - 8 / 5 < -0.20 then ("CONSIDER BTTS NO", "UNDERPRICED YES", "N/A")
      else ("NO BET", "NO CLEAR VALUE", "N/A")) :=
  analyzeBTTS_value_ladder 2 (8 / 5) (by norm_num) (by norm_num)

/-- C4 counterexample: at bookmaker odds 2 and fair odds 8/5 the value
difference is 0.4 > 0.30, so the claim requires STRONG VALUE with High
confidence, but the later revision answers GOOD VALUE with Medium
confidence. -/
theorem analyzeBTTSValue2_strong_value_counterexample :
    (2 : ℚ) - 8 / 5 > 0.30 ∧
    (analyzeBTTSValue2 2 (some (8 / 5))).recommendation = "BET BTTS YES" ∧
    (analyzeBTTSValue2 2 (some (8 / 5))).valueRating = "GOOD VALUE" ∧
    (analyzeBTTSValue2 2 (some (8 / 5))).confidence = "Medium" ∧
    (analyzeBTTSValue2 2 (some (8 / 5))).valueRating ≠ "STRONG VALUE" := by
  refine ⟨by norm_num, ?_, ?_, ?_, ?_⟩ <;> norm_num [analyzeBTTSValue2] <;> decide

/-- Embedding of `poisson` (`api.js` lines 36-38 and 586-588): the
Poisson probability mass `e^(-λ) · λ^k / k!` (the JavaScript `factorial`
is the plain running product `k!`). -/
noncomputable def poisson (k : ℕ) (lambda : ℝ) : ℝ :=
  Real.exp (-lambda) * lambda ^ k / (Nat.factorial k : ℝ)

/-- The clamp applied to the covariance parameter inside
`bivariatePoissonProbability` (`api.js` line 48 / 591):
`Math.max(0, Math.min(lambda3, lambda1, lambda2))`. -/
noncomputable def lambda3Safe (lambda1 lambda2 lambda3 : ℝ) : ℝ :=
  max 0 (min lambda3 (min lambda1 lambda2))

/-- Embedding of `bivariatePoissonProbability` (`api.js` lines 42-68 and
590-604): clamp `lambda3`, form the residual rates, and convolve the
three Poisson components over the shared count `k = 0..min(h, a)`. -/
noncomputable def bivariatePoissonProbability (homeGoals awayGoals : ℕ)
    (lambda1 lambda2 lambda3 : ℝ) : ℝ :=
  let l3 := lambda3Safe lambda1 lambda2 lambda3
  let lambda1Star := lambda1 - l3
  let lambda2Star := lambda2 - l3
  ∑ k ∈ Finset.range (min homeGoals awayGoals + 1),
    poisson (homeGoals - k) lambda1Star * poisson (awayGoals - k) lambda2Star *
      poisson k l3

/-- Embedding of `dixonColesAdjustment` (`api.js` lines 95-106 and
720-729): the correlation factor τ, 1 outside the four low-score cells.
The JavaScript looks the factor up in a string-keyed table and returns
`adjustments[key] || 1`: `||` replaces a falsy lookup result with 1, so
a factor that computes to exactly 0 (for example `1 - rho` at ρ = 1) is
returned as 1, as is a missing key (unreachable here, since the four
keys cover every cell with both goal counts at most 1). -/
noncomputable def dixonColesAdjustment (homeGoals awayGoals : ℕ)
    (lambdaHome lambdaAway rho : ℝ) : ℝ :=
  if 1 < homeGoals ∨ 1 < awayGoals then 1
  else
    let val :=
      if homeGoals = 0 ∧ awayGoals = 0 then 1 - lambdaHome * lambdaAway * rho
      else if homeGoals = 0 ∧ awayGoals = 1 then 1 + lambdaHome * rho
      else if homeGoals = 1 ∧ awayGoals = 0 then 1 + lambdaAway * rho
      else if homeGoals = 1 ∧ awayGoals = 1 then 1 - rho
      else 1
    if val = 0 then 1 else val

/-- The grid bound of the scoreline matrices (`matrixSize = 6`). -/
def matrixSize : ℕ := 6

/-- One cell of the independent-Poisson scoreline matrix
(`poissonProb = probHome * probAway` in the `predict` loop). -/
noncomputable def poissonCellProb (lambda1 lambda2 : ℝ) (h a : ℕ) : ℝ :=
  poisson h lambda1 * poisson a lambda2

/-- One cell of the Dixon-Coles scoreline matrix
(`dcProb = poissonProb * adjustment` in the `predict` loop). -/
noncomputable def dcCellProb (lambda1 lambda2 rho : ℝ) (h a : ℕ) : ℝ :=
  poisson h lambda1 * poisson a lambda2 *
    dixonColesAdjustment h a lambda1 lambda2 rho

/-- One cell of the bivariate-Poisson scoreline matrix
(`bivProb` in the `predict` loop). -/
noncomputable def bivCellProb (lambda1 lambda2 lambda3 : ℝ) (h a : ℕ) : ℝ :=
  bivariatePoissonProbability h a lambda1 lambda2 lambda3

/-- The independent-Poisson matrix built by the `predict` loop, as the
grid of cell probabilities (the JavaScript cells also carry their `h`
and `a` coordinates). -/
noncomputable def poissonMatrix (lambda1 lambda2 : ℝ) : List (List ℝ) :=
  (List.range matrixSize).map fun h =>
    (List.range matrixSize).map fun a => poissonCellProb lambda1 lambda2 h a

/-- The Dixon-Coles matrix built by the `predict` loop, as the grid of
cell probabilities (the JavaScript cells additionally carry the
`adjustment` factor). -/
noncomputable def dixonColesMatrix (lambda1 lambda2 rho : ℝ) : List (List ℝ) :=
  (List.range matrixSize).map fun h =>
    (List.range matrixSize).map fun a => dcCellProb lambda1 lambda2 rho h a

/-- Aggregation of `homeWinProb` in the `predict` loop: sum of the cells
with `h > a`. -/
noncomputable def gridHomeWin (cell : ℕ → ℕ → ℝ) : ℝ :=
  ∑ h ∈ Finset.range matrixSize, ∑ a ∈ Finset.range matrixSize,
    if a < h then cell h a else 0

/-- Aggregation of `drawProb` in the `predict` loop: sum of the cells
with `h = a`. -/
noncomputable def gridDraw (cell : ℕ → ℕ → ℝ) : ℝ :=
  ∑ h ∈ Finset.range matrixSize, ∑ a ∈ Finset.range matrixSize,
    if h = a then cell h a else 0

/-- Aggregation of `awayWinProb` in the `predict` loop: sum of the cells
with `h < a`. -/
noncomputable def gridAwayWin (cell : ℕ → ℕ → ℝ) : ℝ :=
  ∑ h ∈ Finset.range matrixSize, ∑ a ∈ Finset.range matrixSize,
    if h < a then cell h a else 0

/-- The Poisson mass at rate 0 is the Kronecker delta at 0 (JavaScript
`Math.pow(0, 0) = 1`, matching `0 ^ 0 = 1` here). -/
theorem poisson_zero_rate (k : ℕ) : poisson k 0 = if k = 0 then 1 else 0 := by
  cases k with
  | zero => simp [poisson]
  | succ n => simp [poisson]

/-- C5: for positive marginal rates and any non-positive covariance
parameter (including the estimator's low-scoring value −0.05), the
clamp sends λ3 to 0 and the bivariate scoreline probability collapses
to the independent product, so negative covariance is never modelled. -/
theorem bivariatePoisson_nonpos_lambda3_indep (h a : ℕ) (lambda1 lambda2 lambda3 : ℝ)
    (h1 : 0 < lambda1) (h2 : 0 < lambda2) (h3 : lambda3 ≤ 0) :
    bivariatePoissonProbability h a lambda1 lambda2 lambda3 =
      poisson h lambda1 * poisson a lambda2 := by
  have hsafe : lambda3Safe lambda1 lambda2 lambda3 = 0 := by
    have hmin : min lambda3 (min lambda1 lambda2) ≤ 0 :=
      le_trans (min_le_left _ _) h3
    simp [lambda3Safe, max_eq_left hmin]
  unfold bivariatePoissonProbability
  rw [hsafe]
  rw [Finset.sum_eq_single 0]
  · simp [poisson_zero_rate]
  · intro k _ hk
    simp [poisson_zero_rate, hk]
  · intro habs
    exact absurd (Finset.mem_range.mpr (Nat.succ_pos _)) habs

/-- Witness for `bivariatePoisson_nonpos_lambda3_indep` at the scoreline
(2, 3), rates 1 and 1, and the estimator's negative covariance −0.05. -/
theorem bivariatePoisson_nonpos_lambda3_indep_witness :
    bivariatePoissonProbability 2 3 1 1 (-(5 : ℝ) / 100) =
      poisson 2 1 * poisson 3 1 :=
  bivariatePoisson_nonpos_lambda3_indep 2 3 1 1 (-(5 : ℝ) / 100)
    (by norm_num) (by norm_num) (by norm_num)

/-- The Dixon-Coles correlation factor is identically 1 at ρ = 0, on the
four special cells as well as everywhere else. -/
theorem dixonColesAdjustment_rho_zero (h a : ℕ) (lambda1 lambda2 : ℝ) :
    dixonColesAdjustment h a lambda1 lambda2 0 = 1 := by
  simp only [dixonColesAdjustment]
  split_ifs <;> ring

/-- C6: at ρ = 0 every cell of the Dixon-Coles scoreline matrix equals
the corresponding cell of the independent-Poisson matrix. -/
theorem dixonColes_matrix_rho_zero (lambda1 lambda2 : ℝ) :
    dixonColesMatrix lambda1 lambda2 0 = poissonMatrix lambda1 lambda2 := by
  unfold dixonColesMatrix poissonMatrix
  simp [dcCellProb, poissonCellProb, dixonColesAdjustment_rho_zero]

/-- The Poisson mass is non-negative for a non-negative rate. -/
theorem poisson_nonneg (k : ℕ) (lambda : ℝ) (hl : 0 ≤ lambda) :
    0 ≤ poisson k lambda := by
  unfold poisson
  apply div_nonneg _ (Nat.cast_nonneg _)
  exact mul_nonneg (Real.exp_pos _).le (pow_nonneg hl k)

/-- Any partial sum of the Poisson mass function is at most 1. -/
theorem poisson_partial_sum_le_one (lambda : ℝ) (hl : 0 ≤ lambda) (n : ℕ) :
    ∑ k ∈ Finset.range n, poisson k lambda ≤ 1 := by
  have hs := Real.sum_le_exp_of_nonneg hl n
  have hexp : 0 < Real.exp (-lambda) := Real.exp_pos _
  have hfac : ∑ k ∈ Finset.range n, poisson k lambda
      = Real.exp (-lambda) * ∑ k ∈ Finset.range n, lambda ^ k / (Nat.factorial k : ℝ) := by
    rw [Finset.mul_sum]
    refine Finset.sum_congr rfl fun k _ => ?_
    unfold poisson; ring
  rw [hfac]
  calc Real.exp (-lambda) * ∑ k ∈ Finset.range n, lambda ^ k / (Nat.factorial k : ℝ)
      ≤ Real.exp (-lambda) * Real.exp lambda :=
        mul_le_mul_of_nonneg_left hs hexp.le
    _ = 1 := by rw [← Real.exp_add]; simp

/-- Each single Poisson mass is at most 1 for a non-negative rate. -/
theorem poisson_le_one (k : ℕ) (lambda : ℝ) (hl : 0 ≤ lambda) :
    poisson k lambda ≤ 1 := by
  have h1 : poisson k lambda ≤ ∑ j ∈ Finset.range (k + 1), poisson j lambda :=
    Finset.single_le_sum (fun j _ => poisson_nonneg j lambda hl)
      (Finset.mem_range.mpr (Nat.lt_succ_self k))
  exact le_trans h1 (poisson_partial_sum_le_one lambda hl (k + 1))

/-- The clamped covariance is non-negative. -/
theorem lambda3Safe_nonneg (l1 l2 l3 : ℝ) : 0 ≤ lambda3Safe l1 l2 l3 :=
  le_max_left _ _

/-- The clamped covariance never exceeds either marginal rate. -/
theorem lambda3Safe_le_min (l1 l2 l3 : ℝ) (h1 : 0 ≤ l1) (h2 : 0 ≤ l2) :
    lambda3Safe l1 l2 l3 ≤ min l1 l2 :=
  max_le (le_min h1 h2) (min_le_right _ _)

/-- Every bivariate-Poisson cell probability is non-negative. -/
theorem bivariatePoisson_nonneg (l1 l2 l3 : ℝ) (h1 : 0 ≤ l1) (h2 : 0 ≤ l2)
    (h a : ℕ) : 0 ≤ bivariatePoissonProbability h a l1 l2 l3 := by
  have hs0 : 0 ≤ lambda3Safe l1 l2 l3 := lambda3Safe_nonneg l1 l2 l3
  have hminle := lambda3Safe_le_min l1 l2 l3 h1 h2
  have hr1 : 0 ≤ l1 - lambda3Safe l1 l2 l3 := by
    have := le_trans hminle (min_le_left l1 l2); linarith
  have hr2 : 0 ≤ l2 - lambda3Safe l1 l2 l3 := by
    have := le_trans hminle (min_le_right l1 l2); linarith
  simp only [bivariatePoissonProbability]
  refine Finset.sum_nonneg fun k _ => ?_
  exact mul_nonneg (mul_nonneg (poisson_nonneg _ _ hr1) (poisson_nonneg _ _ hr2))
    (poisson_nonneg _ _ hs0)

/-- Every bivariate-Poisson cell probability is at most 1. -/
theorem bivariatePoisson_le_one (l1 l2 l3 : ℝ) (h1 : 0 ≤ l1) (h2 : 0 ≤ l2)
    (h a : ℕ) : bivariatePoissonProbability h a l1 l2 l3 ≤ 1 := by
  have hs0 : 0 ≤ lambda3Safe l1 l2 l3 := lambda3Safe_nonneg l1 l2 l3
  have hminle := lambda3Safe_le_min l1 l2 l3 h1 h2
  have hr1 : 0 ≤ l1 - lambda3Safe l1 l2 l3 := by
    have := le_trans hminle (min_le_left l1 l2); linarith
  have hr2 : 0 ≤ l2 - lambda3Safe l1 l2 l3 := by
    have := le_trans hminle (min_le_right l1 l2); linarith
  simp only [bivariatePoissonProbability]
  calc (∑ k ∈ Finset.range (min h a + 1),
          poisson (h - k) (l1 - lambda3Safe l1 l2 l3) *
            poisson (a - k) (l2 - lambda3Safe l1 l2 l3) *
            poisson k (lambda3Safe l1 l2 l3))
      ≤ ∑ k ∈ Finset.range (min h a + 1), poisson k (lambda3Safe l1 l2 l3) := by
        refine Finset.sum_le_sum fun k _ => ?_
        have hb : poisson (h - k) (l1 - lambda3Safe l1 l2 l3) *
            poisson (a - k) (l2 - lambda3Safe l1 l2 l3) ≤ 1 :=
          mul_le_one₀ (poisson_le_one _ _ hr1) (poisson_nonneg _ _ hr2)
            (poisson_le_one _ _ hr2)
        exact mul_le_of_le_one_left (poisson_nonneg _ _ hs0) hb
    _ ≤ 1 := poisson_partial_sum_le_one _ hs0 _

/-- C10: for positive marginal rates and an arbitrary caller-supplied
λ3, the clamp keeps λ3 inside `[0, min(λ_home, λ_away)]`, both residual
rates `λ1* = λ_home − λ3_safe` and `λ2* = λ_away − λ3_safe` are
non-negative, and every returned cell probability lies in `[0, 1]`. -/
theorem bivariatePoisson_clamp_safe (lambda1 lambda2 lambda3 : ℝ) (h a : ℕ)
    (h1 : 0 < lambda1) (h2 : 0 < lambda2) :
    0 ≤ lambda3Safe lambda1 lambda2 lambda3 ∧
    lambda3Safe lambda1 lambda2 lambda3 ≤ min lambda1 lambda2 ∧
    0 ≤ lambda1 - lambda3Safe lambda1 lambda2 lambda3 ∧
    0 ≤ lambda2 - lambda3Safe lambda1 lambda2 lambda3 ∧
    0 ≤ bivariatePoissonProbability h a lambda1 lambda2 lambda3 ∧
    bivariatePoissonProbability h a lambda1 lambda2 lambda3 ≤ 1 := by
  have hminle := lambda3Safe_le_min lambda1 lambda2 lambda3 h1.le h2.le
  refine ⟨lambda3Safe_nonneg _ _ _, hminle, ?_, ?_, ?_, ?_⟩
  · have := le_trans hminle (min_le_left lambda1 lambda2); linarith
  · have := le_trans hminle (min_le_right lambda1 lambda2); linarith
  · exact bivariatePoisson_nonneg _ _ _ h1.le h2.le h a
  · exact bivariatePoisson_le_one _ _ _ h1.le h2.le h a

/-- Witness for `bivariatePoisson_clamp_safe` at rates 1 and 2, the
(out-of-range) covariance −5, and the scoreline (2, 3). -/
theorem bivariatePoisson_clamp_safe_witness :
    0 ≤ lambda3Safe 1 2 (-5) ∧
    lambda3Safe 1 2 (-5) ≤ min 1 2 ∧
    0 ≤ 1 - lambda3Safe 1 2 (-5) ∧
    0 ≤ 2 - lambda3Safe 1 2 (-5) ∧
    0 ≤ bivariatePoissonProbability 2 3 1 2 (-5) ∧
    bivariatePoissonProbability 2 3 1 2 (-5) ≤ 1 :=
  bivariatePoisson_clamp_safe 1 2 (-5) 2 3 (by norm_num) (by norm_num)

/-- Splitting the grid by the win/draw/loss trichotomy: the three
aggregates of the `predict` loop together sum the whole grid once. -/
theorem grid_sum_split (cell : ℕ → ℕ → ℝ) :
    gridHomeWin cell + gridDraw cell + gridAwayWin cell =
      ∑ h ∈ Finset.range matrixSize, ∑ a ∈ Finset.range matrixSize, cell h a := by
  unfold gridHomeWin gridDraw gridAwayWin
  rw [← Finset.sum_add_distrib, ← Finset.sum_add_distrib]
  refine Finset.sum_congr rfl fun h _ => ?_
  rw [← Finset.sum_add_distrib, ← Finset.sum_add_distrib]
  refine Finset.sum_congr rfl fun a _ => ?_
  rcases lt_trichotomy a h with hc | hc | hc
  · rw [if_pos hc, if_neg (by omega), if_neg (by omega)]; ring
  · rw [if_neg (by omega), if_pos hc.symm, if_neg (by omega)]; ring
  · rw [if_neg (by omega), if_neg (by omega), if_pos hc]; ring

/-- Each aggregate is non-negative once every cell is. -/
theorem grid_aggregates_nonneg (cell : ℕ → ℕ → ℝ) (hc : ∀ h a, 0 ≤ cell h a) :
    0 ≤ gridHomeWin cell ∧ 0 ≤ gridDraw cell ∧ 0 ≤ gridAwayWin cell := by
  refine ⟨?_, ?_, ?_⟩ <;>
    · refine Finset.sum_nonneg fun h _ => Finset.sum_nonneg fun a _ => ?_
      split_ifs
      · exact hc h a
      · exact le_refl 0

/-- The truncated independent-Poisson grid carries total mass at most 1. -/
theorem poisson_grid_total_le_one (l1 l2 : ℝ) (h1 : 0 ≤ l1) (h2 : 0 ≤ l2) :
    (∑ h ∈ Finset.range matrixSize, ∑ a ∈ Finset.range matrixSize,
      poissonCellProb l1 l2 h a) ≤ 1 := by
  have hkey : (∑ h ∈ Finset.range matrixSize, ∑ a ∈ Finset.range matrixSize,
      poissonCellProb l1 l2 h a) =
      (∑ h ∈ Finset.range matrixSize, poisson h l1) *
        (∑ a ∈ Finset.range matrixSize, poisson a l2) := by
    rw [Finset.sum_mul_sum]
    rfl
  rw [hkey]
  have ha1 := poisson_partial_sum_le_one l1 h1 matrixSize
  have hb0 : 0 ≤ ∑ a ∈ Finset.range matrixSize, poisson a l2 :=
    Finset.sum_nonneg fun a _ => poisson_nonneg a l2 h2
  have hb1 := poisson_partial_sum_le_one l2 h2 matrixSize
  exact mul_le_one₀ ha1 hb0 hb1

/-- Whenever none of the four correlation factors is exactly 0 — so the
JavaScript falsy fallback `|| 1` never fires on the grid — the
Dixon-Coles adjustments redistribute mass but cancel exactly over the
four special cells, and the adjusted grid carries the same total mass as
the independent-Poisson grid. -/
theorem dc_grid_total_eq (l1 l2 rho : ℝ)
    (hz1 : 1 - l1 * l2 * rho ≠ 0) (hz2 : 1 + l1 * rho ≠ 0)
    (hz3 : 1 + l2 * rho ≠ 0) (hz4 : 1 - rho ≠ 0) :
    (∑ h ∈ Finset.range matrixSize, ∑ a ∈ Finset.range matrixSize,
      dcCellProb l1 l2 rho h a) =
    ∑ h ∈ Finset.range matrixSize, ∑ a ∈ Finset.range matrixSize,
      poissonCellProb l1 l2 h a := by
  simp [matrixSize, Finset.sum_range_succ, dcCellProb, poissonCellProb,
    dixonColesAdjustment, poisson, Nat.factorial, hz1, hz2, hz3, hz4]
  ring

/-- A Dixon-Coles cell is non-negative whenever the four adjustment
factors are (the falsy fallback only ever replaces a 0 by 1, which
preserves non-negativity). -/
theorem dcCellProb_nonneg (l1 l2 rho : ℝ) (h1 : 0 ≤ l1) (h2 : 0 ≤ l2)
    (hadj : 0 ≤ 1 - l1 * l2 * rho ∧ 0 ≤ 1 + l1 * rho ∧ 0 ≤ 1 + l2 * rho ∧ 0 ≤ 1 - rho)
    (h a : ℕ) : 0 ≤ dcCellProb l1 l2 rho h a := by
  have hp : 0 ≤ poisson h l1 * poisson a l2 :=
    mul_nonneg (poisson_nonneg h l1 h1) (poisson_nonneg a l2 h2)
  obtain ⟨ha1, ha2, ha3, ha4⟩ := hadj
  have ht : 0 ≤ dixonColesAdjustment h a l1 l2 rho := by
    simp only [dixonColesAdjustment]
    split_ifs <;> linarith
  exact mul_nonneg hp ht

/-- The shifted indicator sum of Poisson masses over the grid range is
bounded by 1. -/
theorem poisson_shifted_sum_le_one (lam : ℝ) (hlam : 0 ≤ lam) (k : ℕ) :
    (∑ h ∈ Finset.range matrixSize, if k ≤ h then poisson (h - k) lam else 0) ≤ 1 := by
  have hfilter : Finset.filter (fun h => k ≤ h) (Finset.range matrixSize) =
      Finset.Ico k matrixSize := by
    ext x
    simp only [Finset.mem_filter, Finset.mem_range, Finset.mem_Ico]
    omega
  have hsum : (∑ h ∈ Finset.range matrixSize, if k ≤ h then poisson (h - k) lam else 0)
      = ∑ h ∈ Finset.Ico k matrixSize, poisson (h - k) lam := by
    rw [← hfilter, Finset.sum_filter]
  rw [hsum, Finset.sum_Ico_eq_sum_range]
  have hcongr : ∀ i ∈ Finset.range (matrixSize - k),
      poisson (k + i - k) lam = poisson i lam := by
    intro i _
    congr 1
    omega
  rw [Finset.sum_congr rfl hcongr]
  exact poisson_partial_sum_le_one lam hlam _

/-- The indicator sums are non-negative. -/
theorem poisson_shifted_sum_nonneg (lam : ℝ) (hlam : 0 ≤ lam) (k : ℕ) :
    0 ≤ ∑ h ∈ Finset.range matrixSize, if k ≤ h then poisson (h - k) lam else 0 := by
  refine Finset.sum_nonneg fun h _ => ?_
  split_ifs
  · exact poisson_nonneg _ _ hlam
  · exact le_refl 0

/-- The truncated bivariate-Poisson grid carries total mass at most 1:
each scoreline decomposes over the shared component `k`, and the triple
sum is dominated by the product of three truncated Poisson masses. -/
theorem biv_grid_total_le_one (l1 l2 l3 : ℝ) (h1 : 0 ≤ l1) (h2 : 0 ≤ l2) :
    (∑ h ∈ Finset.range matrixSize, ∑ a ∈ Finset.range matrixSize,
      bivCellProb l1 l2 l3 h a) ≤ 1 := by
  have hs0 : 0 ≤ lambda3Safe l1 l2 l3 := lambda3Safe_nonneg l1 l2 l3
  have hminle := lambda3Safe_le_min l1 l2 l3 h1 h2
  have hr1 : 0 ≤ l1 - lambda3Safe l1 l2 l3 := by
    have := le_trans hminle (min_le_left l1 l2); linarith
  have hr2 : 0 ≤ l2 - lambda3Safe l1 l2 l3 := by
    have := le_trans hminle (min_le_right l1 l2); linarith
  have hcell : ∀ h ∈ Finset.range matrixSize, ∀ a ∈ Finset.range matrixSize,
      bivCellProb l1 l2 l3 h a =
        ∑ k ∈ Finset.range matrixSize,
          (if k ≤ h then poisson (h - k) (l1 - lambda3Safe l1 l2 l3) else 0) *
            (if k ≤ a then poisson (a - k) (l2 - lambda3Safe l1 l2 l3) else 0) *
            poisson k (lambda3Safe l1 l2 l3) := by
    intro h hh a hha
    have hh6 : h < matrixSize := Finset.mem_range.mp hh
    have hsub : Finset.range (min h a + 1) ⊆ Finset.range matrixSize := by
      intro x hx
      simp only [Finset.mem_range] at hx ⊢
      omega
    simp only [bivCellProb, bivariatePoissonProbability]
    have e1 : (∑ k ∈ Finset.range (min h a + 1),
          poisson (h - k) (l1 - lambda3Safe l1 l2 l3) *
            poisson (a - k) (l2 - lambda3Safe l1 l2 l3) *
            poisson k (lambda3Safe l1 l2 l3)) =
        ∑ k ∈ Finset.range (min h a + 1),
          (if k ≤ h then poisson (h - k) (l1 - lambda3Safe l1 l2 l3) else 0) *
            (if k ≤ a then poisson (a - k) (l2 - lambda3Safe l1 l2 l3) else 0) *
            poisson k (lambda3Safe l1 l2 l3) := by
      refine Finset.sum_congr rfl fun k hk => ?_
      have hk' := Finset.mem_range.mp hk
      rw [if_pos (by omega : k ≤ h), if_pos (by omega : k ≤ a)]
    rw [e1]
    refine Finset.sum_subset hsub fun k _ hnk => ?_
    simp only [Finset.mem_range, not_lt] at hnk
    have hor : ¬ (k ≤ h) ∨ ¬ (k ≤ a) := by omega
    rcases hor with hc | hc
    · rw [if_neg hc]; ring
    · rw [if_neg hc]; ring
  rw [Finset.sum_congr rfl fun h hh =>
    Finset.sum_congr rfl fun a hha => hcell h hh a hha]
  rw [Finset.sum_congr rfl fun h _ => Finset.sum_comm]
  rw [Finset.sum_comm]
  have hfac : ∀ k ∈ Finset.range matrixSize,
      (∑ h ∈ Finset.range matrixSize, ∑ a ∈ Finset.range matrixSize,
        (if k ≤ h then poisson (h - k) (l1 - lambda3Safe l1 l2 l3) else 0) *
          (if k ≤ a then poisson (a - k) (l2 - lambda3Safe l1 l2 l3) else 0) *
          poisson k (lambda3Safe l1 l2 l3)) =
      (∑ h ∈ Finset.range matrixSize,
          if k ≤ h then poisson (h - k) (l1 - lambda3Safe l1 l2 l3) else 0) *
        (∑ a ∈ Finset.range matrixSize,
          if k ≤ a then poisson (a - k) (l2 - lambda3Safe l1 l2 l3) else 0) *
        poisson k (lambda3Safe l1 l2 l3) := by
    intro k _
    rw [Finset.sum_congr rfl fun h _ => ?_, ← Finset.sum_mul, ← Finset.sum_mul]
    rw [← Finset.sum_mul, ← Finset.mul_sum]
  calc (∑ k ∈ Finset.range matrixSize, ∑ h ∈ Finset.range matrixSize,
          ∑ a ∈ Finset.range matrixSize,
          (if k ≤ h then poisson (h - k) (l1 - lambda3Safe l1 l2 l3) else 0) *
            (if k ≤ a then poisson (a - k) (l2 - lambda3Safe l1 l2 l3) else 0) *
            poisson k (lambda3Safe l1 l2 l3))
      = ∑ k ∈ Finset.range matrixSize,
          (∑ h ∈ Finset.range matrixSize,
            if k ≤ h then poisson (h - k) (l1 - lambda3Safe l1 l2 l3) else 0) *
          (∑ a ∈ Finset.range matrixSize,
            if k ≤ a then poisson (a - k) (l2 - lambda3Safe l1 l2 l3) else 0) *
          poisson k (lambda3Safe l1 l2 l3) := Finset.sum_congr rfl hfac
    _ ≤ ∑ k ∈ Finset.range matrixSize, poisson k (lambda3Safe l1 l2 l3) := by
        refine Finset.sum_le_sum fun k _ => ?_
        have hA1 := poisson_shifted_sum_le_one (l1 - lambda3Safe l1 l2 l3) hr1 k
        have hA0 := poisson_shifted_sum_nonneg (l1 - lambda3Safe l1 l2 l3) hr1 k
        have hB1 := poisson_shifted_sum_le_one (l2 - lambda3Safe l1 l2 l3) hr2 k
        have hB0 := poisson_shifted_sum_nonneg (l2 - lambda3Safe l1 l2 l3) hr2 k
        have hAB : (∑ h ∈ Finset.range matrixSize,
              if k ≤ h then poisson (h - k) (l1 - lambda3Safe l1 l2 l3) else 0) *
            (∑ a ∈ Finset.range matrixSize,
              if k ≤ a then poisson (a - k) (l2 - lambda3Safe l1 l2 l3) else 0) ≤ 1 :=
          mul_le_one₀ hA1 hB0 hB1
        exact mul_le_of_le_one_left (poisson_nonneg _ _ hs0) hAB
    _ ≤ 1 := poisson_partial_sum_le_one _ hs0 _

/-- C9 (amended): for positive rates the three 1X2 aggregates are each
non-negative and sum to at most 1 for the independent-Poisson grid and
for the bivariate-Poisson grid with any caller-supplied λ3.  For the
Dixon-Coles grid, the three aggregates sum to at most 1 whenever none
of the four correlation factors is exactly 0 (so the JavaScript falsy
fallback `|| 1` never fires and the adjustments cancel in total mass),
and they are each non-negative whenever the four factors are
non-negative — but neither bound holds for arbitrary caller-supplied ρ. -/
theorem grid_outcome_bounds (lambda1 lambda2 rho lambda3 : ℝ)
    (h1 : 0 < lambda1) (h2 : 0 < lambda2) :
    (0 ≤ gridHomeWin (poissonCellProb lambda1 lambda2) ∧
      0 ≤ gridDraw (poissonCellProb lambda1 lambda2) ∧
      0 ≤ gridAwayWin (poissonCellProb lambda1 lambda2) ∧
      gridHomeWin (poissonCellProb lambda1 lambda2) +
        gridDraw (poissonCellProb lambda1 lambda2) +
        gridAwayWin (poissonCellProb lambda1 lambda2) ≤ 1) ∧
    (0 ≤ gridHomeWin (bivCellProb lambda1 lambda2 lambda3) ∧
      0 ≤ gridDraw (bivCellProb lambda1 lambda2 lambda3) ∧
      0 ≤ gridAwayWin (bivCellProb lambda1 lambda2 lambda3) ∧
      gridHomeWin (bivCellProb lambda1 lambda2 lambda3) +
        gridDraw (bivCellProb lambda1 lambda2 lambda3) +
        gridAwayWin (bivCellProb lambda1 lambda2 lambda3) ≤ 1) ∧
    ((1 - lambda1 * lambda2 * rho ≠ 0 ∧ 1 + lambda1 * rho ≠ 0 ∧
        1 + lambda2 * rho ≠ 0 ∧ 1 - rho ≠ 0) →
      gridHomeWin (dcCellProb lambda1 lambda2 rho) +
        gridDraw (dcCellProb lambda1 lambda2 rho) +
        gridAwayWin (dcCellProb lambda1 lambda2 rho) ≤ 1) ∧
    ((0 ≤ 1 - lambda1 * lambda2 * rho ∧ 0 ≤ 1 + lambda1 * rho ∧
        0 ≤ 1 + lambda2 * rho ∧ 0 ≤ 1 - rho) →
      0 ≤ gridHomeWin (dcCellProb lambda1 lambda2 rho) ∧
      0 ≤ gridDraw (dcCellProb lambda1 lambda2 rho) ∧
      0 ≤ gridAwayWin (dcCellProb lambda1 lambda2 rho)) := by
  have hpcell : ∀ h a, 0 ≤ poissonCellProb lambda1 lambda2 h a := fun h a =>
    mul_nonneg (poisson_nonneg h lambda1 h1.le) (poisson_nonneg a lambda2 h2.le)
  have hbcell : ∀ h a, 0 ≤ bivCellProb lambda1 lambda2 lambda3 h a := fun h a =>
    bivariatePoisson_nonneg lambda1 lambda2 lambda3 h1.le h2.le h a
  obtain ⟨hp1, hp2, hp3⟩ := grid_aggregates_nonneg _ hpcell
  obtain ⟨hb1, hb2, hb3⟩ := grid_aggregates_nonneg _ hbcell
  refine ⟨⟨hp1, hp2, hp3, ?_⟩, ⟨hb1, hb2, hb3, ?_⟩, fun hz => ?_, fun hadj => ?_⟩
  · rw [grid_sum_split]
    exact poisson_grid_total_le_one lambda1 lambda2 h1.le h2.le
  · rw [grid_sum_split]
    exact biv_grid_total_le_one lambda1 lambda2 lambda3 h1.le h2.le
  · rw [grid_sum_split, dc_grid_total_eq lambda1 lambda2 rho hz.1 hz.2.1 hz.2.2.1 hz.2.2.2]
    exact poisson_grid_total_le_one lambda1 lambda2 h1.le h2.le
  · exact grid_aggregates_nonneg _
      (dcCellProb_nonneg lambda1 lambda2 rho h1.le h2.le hadj)

/-- Witness for `grid_outcome_bounds` at rates 1 and 1, the default
ρ = −0.13, and λ3 = 0.1 (the estimator's mid-band value). -/
theorem grid_outcome_bounds_witness :
    (0 ≤ gridHomeWin (poissonCellProb 1 1) ∧
      0 ≤ gridDraw (poissonCellProb 1 1) ∧
      0 ≤ gridAwayWin (poissonCellProb 1 1) ∧
      gridHomeWin (poissonCellProb 1 1) + gridDraw (poissonCellProb 1 1) +
        gridAwayWin (poissonCellProb 1 1) ≤ 1) ∧
    (0 ≤ gridHomeWin (bivCellProb 1 1 0.1) ∧
      0 ≤ gridDraw (bivCellProb 1 1 0.1) ∧
      0 ≤ gridAwayWin (bivCellProb 1 1 0.1) ∧
      gridHomeWin (bivCellProb 1 1 0.1) + gridDraw (bivCellProb 1 1 0.1) +
        gridAwayWin (bivCellProb 1 1 0.1) ≤ 1) ∧
    (gridHomeWin (dcCellProb 1 1 (-0.13)) + gridDraw (dcCellProb 1 1 (-0.13)) +
        gridAwayWin (dcCellProb 1 1 (-0.13)) ≤ 1) ∧
    (0 ≤ gridHomeWin (dcCellProb 1 1 (-0.13)) ∧
      0 ≤ gridDraw (dcCellProb 1 1 (-0.13)) ∧
      0 ≤ gridAwayWin (dcCellProb 1 1 (-0.13))) := by
  obtain ⟨hp, hb, hdc, himp⟩ :=
    grid_outcome_bounds 1 1 (-0.13) 0.1 (by norm_num) (by norm_num)
  exact ⟨hp, hb, hdc (by norm_num), himp (by norm_num)⟩

/-- C9 counterexample: with rates 1 and 1 and caller-supplied ρ = 100
the (0,0) and (1,1) correlation factors are −99, and the Dixon-Coles
draw aggregate is negative — the aggregates are not non-negative for
every caller-supplied ρ. -/
theorem dixonColes_drawProb_negative_counterexample :
    gridDraw (dcCellProb 1 1 100) < 0 := by
  have hexp := Real.exp_pos (-1 : ℝ)
  norm_num [gridDraw, matrixSize, Finset.sum_range_succ, dcCellProb, dixonColesAdjustment,
    poisson, Nat.factorial]
  nlinarith [hexp, mul_pos hexp hexp]

/-- The falsy fallback is load-bearing: at caller-supplied ρ = 1 with
rates 1 and 1, the (0,0) and (1,1) factors compute to exactly 0 and are
replaced by 1 while the (0,1) and (1,0) factors are 2, so the mass
cancellation fails and the three Dixon-Coles aggregates sum to
`e⁻² · 33769/3600 ≈ 1.269`, strictly more than 1. -/
theorem dixonColes_fallback_sum_gt_one :
    1 < gridHomeWin (dcCellProb 1 1 1) + gridDraw (dcCellProb 1 1 1) +
      gridAwayWin (dcCellProb 1 1 1) := by
  rw [grid_sum_split]
  have h0 : 0 < Real.exp 1 := Real.exp_pos 1
  have h1 : Real.exp 1 < 2.7182818286 := Real.exp_one_lt_d9
  have hx : (1 : ℝ) / 2.7182818286 < Real.exp (-1) := by
    rw [Real.exp_neg, ← one_div]
    exact one_div_lt_one_div_of_lt h0 h1
  have hx0 : (0 : ℝ) < Real.exp (-1) := Real.exp_pos _
  norm_num [matrixSize, Finset.sum_range_succ, dcCellProb, dixonColesAdjustment,
    poisson, Nat.factorial]
  nlinarith [hx, hx0, mul_self_lt_mul_self (by norm_num : (0:ℝ) ≤ 1 / 2.7182818286) hx]

end Poison
